import Mathlib

/-!
Verification of the navigation-and-safety engine of the `control` repository.

Each Lean definition below is a shallow embedding of one Python function or
code path of the repository, translated directly from the source file named
in its doc comment.  Machine floats are idealised as real numbers; container
mutation is expressed by explicit state passing; Python exceptions and `None`
returns are expressed with `Except` and `Option`.
-/

namespace Control

/-! ## Data model

`GpsReading` embeds `control/gps.py`'s `GpsReading` class (fields latitude,
longitude, altitude, time).  `LocationGlobalRelative` embeds the dronekit
`LocationGlobalRelative` value (fields lat, lon, alt) used by
`control/main.py` and `control/controller.py`. -/

structure GpsReading where
  latitude : ℝ
  longitude : ℝ
  altitude : ℝ
  time : ℝ

structure LocationGlobalRelative where
  lat : ℝ
  lon : ℝ
  alt : ℝ

/-- `control/gps.py`: `EARTH_RADIUS = 6371001.0`. -/
def EARTH_RADIUS : ℝ := 6371001.0

/-- `control/helper.py`: `location_global_relative_to_gps_reading` builds a
`GpsReading(lat, lon, alt, 0)`. -/
def location_global_relative_to_gps_reading (g : LocationGlobalRelative) : GpsReading :=
  { latitude := g.lat, longitude := g.lon, altitude := g.alt, time := 0 }

/-- `control/helper.py`: `gps_reading_to_location_global` builds a
`LocationGlobalRelative(latitude, longitude, altitude)` (the time is dropped). -/
def gps_reading_to_location_global (r : GpsReading) : LocationGlobalRelative :=
  { lat := r.latitude, lon := r.longitude, alt := r.altitude }

/-- `control/gps.py` `get_location_offset`: flat-earth offset of `origin` by
`north_offset` and `east_offset` meters; keeps the origin's altitude and uses a
null (zero) timestamp. -/
noncomputable def get_location_offset (origin : GpsReading)
    (north_offset east_offset : ℝ) : GpsReading :=
  let lat_offset := north_offset / EARTH_RADIUS
  let lon_offset := east_offset /
    (EARTH_RADIUS * Real.cos (Real.pi * origin.latitude / 180))
  { latitude := origin.latitude + lat_offset * (180 / Real.pi)
    longitude := origin.longitude + lon_offset * (180 / Real.pi)
    altitude := origin.altitude
    time := 0 }

/-- `control/gps.py` `get_relative_from_location`: the relative `(x, y)` values
in meters of `point` with `origin` as `(0, 0)`; inverse of `get_location_offset`. -/
noncomputable def get_relative_from_location (origin point : GpsReading) : ℝ × ℝ :=
  let lon_offset := (point.longitude - origin.longitude) * (Real.pi / 180)
  let lat_offset := (point.latitude - origin.latitude) * (Real.pi / 180)
  (lon_offset * (EARTH_RADIUS * Real.cos (Real.pi * origin.latitude / 180)),
   lat_offset * EARTH_RADIUS)

/-- `control/gps.py` `get_distance`: Euclidean distance over raw degree
differences scaled by the empirical constant `1.113195e5`. -/
noncomputable def get_distance (reading_1 reading_2 : GpsReading) : ℝ :=
  let lat_diff := reading_1.latitude - reading_2.latitude
  let lon_diff := reading_1.longitude - reading_2.longitude
  Real.sqrt (lat_diff * lat_diff + lon_diff * lon_diff) * 1.113195e5

/-- A `get_distance` value is a square root times a positive constant, hence
nonnegative. -/
lemma get_distance_nonneg (a b : GpsReading) : 0 ≤ get_distance a b := by
  unfold get_distance
  have h := Real.sqrt_nonneg
    ((a.latitude - b.latitude) * (a.latitude - b.latitude) +
      (a.longitude - b.longitude) * (a.longitude - b.longitude))
  nlinarith

/-- The all-zero `GpsReading`, used as a concrete sample input. -/
def gps0 : GpsReading := { latitude := 0, longitude := 0, altitude := 0, time := 0 }

/-- The all-zero `LocationGlobalRelative`, used as a concrete sample input. -/
def lgr0 : LocationGlobalRelative := { lat := 0, lon := 0, alt := 0 }

lemma get_distance_self (a : GpsReading) : get_distance a a = 0 := by
  unfold get_distance
  simp

/-- C7: for every origin `O` and offsets `(n, e)` (whenever the longitude scale
factor `cos` of the origin latitude is nonzero, so the offset is well defined),
`get_relative_from_location O (get_location_offset O n e)` equals `(e, n)`
exactly in real arithmetic: the relative computation inverts the offset
computation because both use the same linearization and the same
`cos(origin latitude)` scale factor.  Exact equality entails the claimed
`1e-6` relative tolerance. -/
theorem C7_offset_relative_roundtrip (o : GpsReading) (n e : ℝ)
    (hc : Real.cos (Real.pi * o.latitude / 180) ≠ 0) :
    get_relative_from_location o (get_location_offset o n e) = (e, n) := by
  have hpi : Real.pi ≠ 0 := Real.pi_ne_zero
  have hR : EARTH_RADIUS ≠ 0 := by unfold EARTH_RADIUS; norm_num
  unfold get_relative_from_location get_location_offset
  simp only [Prod.mk.injEq]
  constructor
  · field_simp
    ring
  · field_simp
    ring

/-- Witness for C7 at the concrete origin `gps0` and offsets `n = 3`, `e = 2`:
the scale factor is `cos 0 = 1 ≠ 0` and the round trip returns `(2, 3)`. -/
theorem C7_witness :
    get_relative_from_location gps0 (get_location_offset gps0 3 2) = (2, 3) :=
  C7_offset_relative_roundtrip gps0 3 2 (by
    have h : Real.pi * gps0.latitude / 180 = 0 := by
      simp [gps0]
    rw [h, Real.cos_zero]
    norm_num)

/-! ## Controller (`control/controller.py`)

`check_geofence` is embedded as a pure function of the data it reads: the
wrapper's `home`, the vehicle's current `global_relative_frame` location, the
two limits, and the vehicle's current mode name.  Its observable effects are
reported as a pair: the breach it logs (if any) and whether it issued the
`land()` command. -/

inductive Breach where
  | radius
  | altitude
deriving DecidableEq

/-- `control/controller.py` `Controller.check_geofence`: converts `home` and
the current location to `GpsReading`s; if `distance > max_distance` it logs a
distance breach and lands when the mode is `"GUIDED"`; `elif current.altitude >
max_altitude` it logs an altitude breach and lands when the mode is
`"GUIDED"`.  The first component is the breach logged, the second whether
`land()` was called. -/
noncomputable def check_geofence (home current_location : LocationGlobalRelative)
    (max_distance max_altitude : ℝ) (mode : String) : Option Breach × Bool :=
  let current := location_global_relative_to_gps_reading current_location
  let home_r := location_global_relative_to_gps_reading home
  let distance := get_distance home_r current
  if distance > max_distance then
    (some Breach.radius, mode == "GUIDED")
  else if current.altitude > max_altitude then
    (some Breach.altitude, mode == "GUIDED")
  else
    (none, false)

/-- C5: whenever the radius limit is exceeded — in particular when the radius
and altitude limits are exceeded simultaneously — `check_geofence` reports a
radius breach and never an altitude breach, because the altitude comparison
sits in the `elif` branch evaluated only when the radius comparison failed. -/
theorem C5_radius_breach_priority (home current_location : LocationGlobalRelative)
    (max_distance max_altitude : ℝ) (mode : String)
    (hd : get_distance (location_global_relative_to_gps_reading home)
      (location_global_relative_to_gps_reading current_location) > max_distance)
    (ha : (location_global_relative_to_gps_reading current_location).altitude >
      max_altitude) :
    (check_geofence home current_location max_distance max_altitude mode).1 =
        some Breach.radius ∧
      (check_geofence home current_location max_distance max_altitude mode).1 ≠
        some Breach.altitude := by
  unfold check_geofence
  rw [if_pos hd]
  exact ⟨rfl, by simp⟩

/-- Witness for C5 at the all-zero home and current location with limits `-1`
and `-1`: distance `0` and altitude `0` both exceed their limits, and the
reported breach is the radius breach. -/
theorem C5_witness :
    (check_geofence lgr0 lgr0 (-1) (-1) "GUIDED").1 = some Breach.radius ∧
      (check_geofence lgr0 lgr0 (-1) (-1) "GUIDED").1 ≠ some Breach.altitude :=
  C5_radius_breach_priority lgr0 lgr0 (-1) (-1) "GUIDED"
    (by
      have h := get_distance_self (location_global_relative_to_gps_reading lgr0)
      rw [h]; norm_num)
    (by simp [location_global_relative_to_gps_reading, lgr0])

/-- C6: `check_geofence` issues the forced `land()` command exactly when a
breach (radius or altitude) was detected and the current mode is `"GUIDED"`;
with any other mode the breach is still observed (the logged breach does not
depend on the mode) but the landing command is never issued. -/
theorem C6_land_only_in_guided_mode (home current_location : LocationGlobalRelative)
    (max_distance max_altitude : ℝ) (mode : String) :
    ((check_geofence home current_location max_distance max_altitude mode).2 = true ↔
      (check_geofence home current_location max_distance max_altitude mode).1.isSome ∧
        mode = "GUIDED") ∧
    (check_geofence home current_location max_distance max_altitude mode).1 =
      (check_geofence home current_location max_distance max_altitude "STABILIZE").1 := by
  unfold check_geofence
  set d := get_distance (location_global_relative_to_gps_reading home)
    (location_global_relative_to_gps_reading current_location) with hd
  by_cases h1 : d > max_distance
  · rw [if_pos h1, if_pos h1]
    simp
  · rw [if_neg h1, if_neg h1]
    by_cases h2 :
        (location_global_relative_to_gps_reading current_location).altitude > max_altitude
    · rw [if_pos h2, if_pos h2]
      simp
    · rw [if_neg h2, if_neg h2]
      simp

/-! ## Home ownership (`control/controller.py`)

`Controller.home` starts as `None` in `__init__`.  Grepping `controller.py`,
the only statements that assign to it are `self.home =
self.vehicle.location.global_relative_frame` at the end of `arm()` and
`self.home.alt = target_altitude` in `takeoff()`; `log_flight_info`,
`check_geofence`, `goto` and `land` only read it.  `COp` lists the public
controller operations with the vehicle observation each one reads embedded as
an argument, and `op_home` is each operation's effect on the `home` field. -/

inductive COp where
  | arm (observed_location : LocationGlobalRelative)
  | takeoff (target_altitude : ℝ)
  | goto (point : LocationGlobalRelative)
  | land
  | check (max_distance max_altitude : ℝ)
  | log_flight_info

def COp.is_arm : COp → Bool
  | .arm _ => true
  | _ => false

def COp.is_takeoff : COp → Bool
  | .takeoff _ => true
  | _ => false

/-- Effect of one controller operation on the `home` field.  `arm` overwrites
it with the location observed after arming; `takeoff` overwrites its `alt`
with the target altitude (`self.home.alt = target_altitude`; on a `None` home
Python would raise, modelled by leaving `none`); no other operation assigns
to `home`. -/
def op_home (h : Option LocationGlobalRelative) : COp → Option LocationGlobalRelative
  | .arm loc => some loc
  | .takeoff t => h.map fun l => { l with alt := t }
  | _ => h

/-- The `home` field after a sequence of controller operations. -/
def run_home (h : Option LocationGlobalRelative) : List COp → Option LocationGlobalRelative
  | [] => h
  | op :: ops => run_home (op_home h op) ops

/-- The location read at arming time in the concrete counterexample: latitude
`33.194`, longitude `-87.513`, altitude `0`. -/
def loc0 : LocationGlobalRelative := { lat := 33.194, lon := -87.513, alt := 0 }

/-- C1 counterexample: `main.py` calls `arm()` and then `takeoff(10)`.  After
arming at `loc0` (altitude `0`), the operation sequence `[arm loc0, takeoff
10]` leaves `home` with altitude `10`, not the altitude `0` read at arming:
`takeoff` mutates the home position, so the Origin is not immutable for the
flight's duration. -/
theorem C1_counterexample :
    (run_home none [COp.arm loc0, COp.takeoff 10]).map LocationGlobalRelative.alt ≠
      some loc0.alt := by
  simp only [run_home, op_home, Option.map_some]
  intro h
  have h' : (10 : ℝ) = loc0.alt := by
    simpa using h
  rw [show loc0.alt = 0 from rfl] at h'
  norm_num at h'

/-- C1 as amended: after `arm()` captures the location `loc`, any sequence of
controller operations that contains no further `arm` leaves the home
latitude and longitude equal to the values read at arming; the altitude also
stays equal to the armed value as long as no `takeoff` occurs (`takeoff`
overwrites it with the takeoff target altitude). -/
theorem C1_home_lat_lon_immutable (loc : LocationGlobalRelative) (ops : List COp)
    (harm : ∀ op ∈ ops, op.is_arm = false) :
    ∃ a, run_home none (COp.arm loc :: ops) =
        some { lat := loc.lat, lon := loc.lon, alt := a } ∧
      ((∀ op ∈ ops, op.is_takeoff = false) → a = loc.alt) := by
  have general : ∀ (ops : List COp) (l : LocationGlobalRelative),
      (∀ op ∈ ops, op.is_arm = false) →
      ∃ a, run_home (some l) ops = some { lat := l.lat, lon := l.lon, alt := a } ∧
        ((∀ op ∈ ops, op.is_takeoff = false) → a = l.alt) := by
    intro ops
    induction ops with
    | nil =>
      intro l _
      exact ⟨l.alt, by simp [run_home], fun _ => rfl⟩
    | cons op rest ih =>
      intro l hnoarm
      have hrest : ∀ o ∈ rest, o.is_arm = false := fun o ho =>
        hnoarm o (List.mem_cons_of_mem _ ho)
      cases op with
      | arm loc' =>
        exact absurd (hnoarm _ (List.mem_cons_self _ _)) (by simp [COp.is_arm])
      | takeoff t =>
        obtain ⟨a, ha, _⟩ := ih { l with alt := t } hrest
        refine ⟨a, ?_, ?_⟩
        · simpa [run_home, op_home] using ha
        · intro hnt
          exact absurd (hnt _ (List.mem_cons_self _ _)) (by simp [COp.is_takeoff])
      | goto p =>
        obtain ⟨a, ha, halt⟩ := ih l hrest
        exact ⟨a, by simpa [run_home, op_home] using ha,
          fun hnt => halt fun o ho => hnt o (List.mem_cons_of_mem _ ho)⟩
      | land =>
        obtain ⟨a, ha, halt⟩ := ih l hrest
        exact ⟨a, by simpa [run_home, op_home] using ha,
          fun hnt => halt fun o ho => hnt o (List.mem_cons_of_mem _ ho)⟩
      | check md ma =>
        obtain ⟨a, ha, halt⟩ := ih l hrest
        exact ⟨a, by simpa [run_home, op_home] using ha,
          fun hnt => halt fun o ho => hnt o (List.mem_cons_of_mem _ ho)⟩
      | log_flight_info =>
        obtain ⟨a, ha, halt⟩ := ih l hrest
        exact ⟨a, by simpa [run_home, op_home] using ha,
          fun hnt => halt fun o ho => hnt o (List.mem_cons_of_mem _ ho)⟩
  simpa [run_home, op_home] using general ops loc harm

/-- Witness for the amended C1 at the concrete sequence `[goto loc0, land]`
after arming at `loc0`: the home keeps latitude, longitude and (since no
takeoff occurs) altitude of the armed location. -/
theorem C1_witness :
    ∃ a, run_home none [COp.arm loc0, COp.goto loc0, COp.land] =
        some { lat := loc0.lat, lon := loc0.lon, alt := a } ∧
      ((∀ op ∈ [COp.goto loc0, COp.land], op.is_takeoff = false) → a = loc0.alt) :=
  C1_home_lat_lon_immutable loc0 [COp.goto loc0, COp.land] (by
    intro op hop
    rcases List.mem_cons.mp hop with rfl | hop'
    · rfl
    · rcases List.mem_cons.mp hop' with rfl | h
      · rfl
      · cases h)

/-! ## Plan validation (`control/main.py` `create_waypoints`)

An `OffsetPoint` embeds one received waypoint dictionary with keys `x`
(east), `y` (north) and `z` (altitude).  `create_waypoints` walks the list in
order; for each point it derives a GPS waypoint by `get_location_offset` on
the north/east offsets and then overwrites its altitude with `z`, and rejects
the whole plan at the first point whose distance from the start exceeds
`MAX_RADIUS`, whose altitude exceeds `MAX_ALTITUDE`, or whose altitude is
under `MIN_ALTITUDE`.  The Python function returns `None` on rejection and
logs / sends the offending point and the violated bound; the embedding
returns that same information as the `Rejection` error value. -/

structure OffsetPoint where
  x : ℝ
  y : ℝ
  z : ℝ

/-- `control/main.py`: `MAX_RADIUS = 250`. -/
def MAX_RADIUS : ℝ := 250

/-- `control/main.py`: `MAX_ALTITUDE = 50`. -/
def MAX_ALTITUDE : ℝ := 50

/-- `control/main.py`: `MIN_ALTITUDE = 3`. -/
def MIN_ALTITUDE : ℝ := 3

/-- The offending point together with the bound whose violation
`create_waypoints` logs and sends to the ground station before returning
`None`. -/
inductive Rejection where
  | radius (point : OffsetPoint)
  | max_alt (point : OffsetPoint)
  | min_alt (point : OffsetPoint)

def Rejection.point : Rejection → OffsetPoint
  | .radius p => p
  | .max_alt p => p
  | .min_alt p => p

/-- `control/main.py` `create_waypoints` loop body: `gps_waypoint =
get_location_offset(start_gps, y, x)` followed by `gps_waypoint.altitude = z`. -/
noncomputable def derived_waypoint (start_gps : GpsReading) (p : OffsetPoint) :
    GpsReading :=
  { get_location_offset start_gps p.y p.x with altitude := p.z }

/-- `control/main.py` `create_waypoints`: validates the received offset points
in order against `MAX_RADIUS`, `MAX_ALTITUDE` and `MIN_ALTITUDE`; on success
returns the converted `LocationGlobalRelative` list, on the first violation
rejects the whole plan with the offending point and bound. -/
noncomputable def create_waypoints (start_location : LocationGlobalRelative) :
    List OffsetPoint → Except Rejection (List LocationGlobalRelative)
  | [] => Except.ok []
  | p :: rest =>
    let start_gps := location_global_relative_to_gps_reading start_location
    let w := derived_waypoint start_gps p
    if get_distance start_gps w > MAX_RADIUS then Except.error (Rejection.radius p)
    else if w.altitude > MAX_ALTITUDE then Except.error (Rejection.max_alt p)
    else if w.altitude < MIN_ALTITUDE then Except.error (Rejection.min_alt p)
    else (create_waypoints start_location rest).map
      (fun l => gps_reading_to_location_global w :: l)

/-- The bounds one point must satisfy for `create_waypoints` to accept it. -/
def waypoint_in_bounds (start_gps : GpsReading) (p : OffsetPoint) : Prop :=
  get_distance start_gps (derived_waypoint start_gps p) ≤ MAX_RADIUS ∧
    (derived_waypoint start_gps p).altitude ≤ MAX_ALTITUDE ∧
    MIN_ALTITUDE ≤ (derived_waypoint start_gps p).altitude

/-- The bound a `Rejection` names is really violated by the point it carries. -/
def rejection_violated (start_gps : GpsReading) : Rejection → Prop
  | .radius p => get_distance start_gps (derived_waypoint start_gps p) > MAX_RADIUS
  | .max_alt p => (derived_waypoint start_gps p).altitude > MAX_ALTITUDE
  | .min_alt p => (derived_waypoint start_gps p).altitude < MIN_ALTITUDE

/-- `control/main.py` `main`: `points = create_waypoints(...)`; on `if not
points:` the process exits with status 1 before `vehicle_control.arm()` is
reached, so the vehicle is armed only when a (nonempty) point list was
produced. -/
def main_arms : Except Rejection (List LocationGlobalRelative) → Bool
  | .error _ => false
  | .ok l => !l.isEmpty

lemma create_waypoints_ok_iff (start_location : LocationGlobalRelative)
    (pts : List OffsetPoint) :
    (∃ l, create_waypoints start_location pts = Except.ok l) ↔
      ∀ p ∈ pts,
        waypoint_in_bounds (location_global_relative_to_gps_reading start_location) p := by
  induction pts with
  | nil => simp [create_waypoints]
  | cons p rest ih =>
    set sg := location_global_relative_to_gps_reading start_location with hsg
    unfold create_waypoints
    by_cases h1 : get_distance sg (derived_waypoint sg p) > MAX_RADIUS
    · rw [if_pos h1]
      simp only [List.mem_cons]
      constructor
      · rintro ⟨l, hl⟩; cases hl
      · intro hall
        exact absurd (hall p (Or.inl rfl)).1 (not_le.mpr h1)
    · rw [if_neg h1]
      by_cases h2 : (derived_waypoint sg p).altitude > MAX_ALTITUDE
      · rw [if_pos h2]
        simp only [List.mem_cons]
        constructor
        · rintro ⟨l, hl⟩; cases hl
        · intro hall
          exact absurd (hall p (Or.inl rfl)).2.1 (not_le.mpr h2)
      · rw [if_neg h2]
        by_cases h3 : (derived_waypoint sg p).altitude < MIN_ALTITUDE
        · rw [if_pos h3]
          simp only [List.mem_cons]
          constructor
          · rintro ⟨l, hl⟩; cases hl
          · intro hall
            exact absurd (hall p (Or.inl rfl)).2.2 (not_le.mpr h3)
        · rw [if_neg h3]
          simp only [List.mem_cons]
          constructor
          · rintro ⟨l, hl⟩
            rcases hrest : create_waypoints start_location rest with r | l'
            · rw [hrest] at hl; cases hl
            · intro q hq
              rcases hq with rfl | hq
              · exact ⟨not_lt.mp h1, not_lt.mp h2, not_lt.mp h3⟩
              · exact (ih.mp ⟨l', hrest⟩) q hq
          · intro hall
            obtain ⟨l', hl'⟩ := ih.mpr fun q hq => hall q (Or.inr hq)
            exact ⟨_, by rw [hl']; rfl⟩

lemma create_waypoints_ok_val (start_location : LocationGlobalRelative)
    (pts : List OffsetPoint) (l : List LocationGlobalRelative)
    (h : create_waypoints start_location pts = Except.ok l) :
    l = pts.map fun p => gps_reading_to_location_global
      (derived_waypoint (location_global_relative_to_gps_reading start_location) p) := by
  induction pts generalizing l with
  | nil =>
    simp only [create_waypoints] at h
    cases h
    simp
  | cons p rest ih =>
    set sg := location_global_relative_to_gps_reading start_location with hsg
    unfold create_waypoints at h
    by_cases h1 : get_distance sg (derived_waypoint sg p) > MAX_RADIUS
    · rw [if_pos h1] at h; cases h
    · rw [if_neg h1] at h
      by_cases h2 : (derived_waypoint sg p).altitude > MAX_ALTITUDE
      · rw [if_pos h2] at h; cases h
      · rw [if_neg h2] at h
        by_cases h3 : (derived_waypoint sg p).altitude < MIN_ALTITUDE
        · rw [if_pos h3] at h; cases h
        · rw [if_neg h3] at h
          rcases hrest : create_waypoints start_location rest with r | l'
          · rw [hrest] at h; cases h
          · rw [hrest] at h
            cases h
            simp [ih l' hrest]

lemma create_waypoints_error (start_location : LocationGlobalRelative)
    (pts : List OffsetPoint) (r : Rejection)
    (h : create_waypoints start_location pts = Except.error r) :
    r.point ∈ pts ∧
      rejection_violated (location_global_relative_to_gps_reading start_location) r := by
  induction pts with
  | nil => simp only [create_waypoints] at h; cases h
  | cons p rest ih =>
    set sg := location_global_relative_to_gps_reading start_location with hsg
    unfold create_waypoints at h
    by_cases h1 : get_distance sg (derived_waypoint sg p) > MAX_RADIUS
    · rw [if_pos h1] at h
      cases h
      exact ⟨List.mem_cons_self _ _, h1⟩
    · rw [if_neg h1] at h
      by_cases h2 : (derived_waypoint sg p).altitude > MAX_ALTITUDE
      · rw [if_pos h2] at h
        cases h
        exact ⟨List.mem_cons_self _ _, h2⟩
      · rw [if_neg h2] at h
        by_cases h3 : (derived_waypoint sg p).altitude < MIN_ALTITUDE
        · rw [if_pos h3] at h
          cases h
          exact ⟨List.mem_cons_self _ _, h3⟩
        · rw [if_neg h3] at h
          rcases hrest : create_waypoints start_location rest with r' | l'
          · rw [hrest] at h
            cases h
            obtain ⟨hmem, hviol⟩ := ih hrest
            exact ⟨List.mem_cons_of_mem _ hmem, hviol⟩
          · rw [hrest] at h; cases h

/-- C4: `create_waypoints` succeeds — producing exactly the list of converted
waypoints in received order — if and only if every received point keeps its
derived waypoint within the maximum radius and within the altitude bounds;
and whenever it rejects, the rejection carries an offending point of the plan
and names a bound that point really violates, no point list is produced and
`main` never reaches `vehicle_control.arm()`. -/
theorem C4_plan_validation (start_location : LocationGlobalRelative)
    (pts : List OffsetPoint) :
    ((∃ l, create_waypoints start_location pts = Except.ok l) ↔
      ∀ p ∈ pts,
        waypoint_in_bounds (location_global_relative_to_gps_reading start_location) p) ∧
    (∀ l, create_waypoints start_location pts = Except.ok l →
      l = pts.map fun p => gps_reading_to_location_global
        (derived_waypoint (location_global_relative_to_gps_reading start_location) p)) ∧
    (∀ r, create_waypoints start_location pts = Except.error r →
      r.point ∈ pts ∧
        rejection_violated (location_global_relative_to_gps_reading start_location) r ∧
        main_arms (create_waypoints start_location pts) = false) := by
  refine ⟨create_waypoints_ok_iff start_location pts,
    fun l hl => create_waypoints_ok_val start_location pts l hl,
    fun r hr => ?_⟩
  obtain ⟨hmem, hviol⟩ := create_waypoints_error start_location pts r hr
  exact ⟨hmem, hviol, by rw [hr]; rfl⟩

/-- A concrete in-bounds offset point: `x = 0`, `y = 0`, `z = 10`. -/
def op0 : OffsetPoint := { x := 0, y := 0, z := 10 }

/-- Witness for C4 at the all-zero start location and the one-point plan
`[op0]`: the derived waypoint sits at distance `0 ≤ 250` and altitude
`10 ∈ [3, 50]`, so the plan validates and the converted list is produced. -/
theorem C4_witness :
    ∃ l, create_waypoints lgr0 [op0] = Except.ok l := by
  refine ((C4_plan_validation lgr0 [op0]).1).mpr ?_
  intro p hp
  rcases List.mem_singleton.mp hp with rfl
  have hlat : (derived_waypoint (location_global_relative_to_gps_reading lgr0) op0).latitude
      = 0 := by
    simp [derived_waypoint, get_location_offset, location_global_relative_to_gps_reading,
      lgr0, op0]
  have hlon : (derived_waypoint (location_global_relative_to_gps_reading lgr0) op0).longitude
      = 0 := by
    simp [derived_waypoint, get_location_offset, location_global_relative_to_gps_reading,
      lgr0, op0]
  have halt : (derived_waypoint (location_global_relative_to_gps_reading lgr0) op0).altitude
      = 10 := by
    simp [derived_waypoint, get_location_offset, location_global_relative_to_gps_reading,
      lgr0, op0]
  refine ⟨?_, ?_, ?_⟩
  · unfold get_distance
    rw [hlat, hlon]
    simp only [location_global_relative_to_gps_reading, lgr0]
    norm_num
    unfold MAX_RADIUS
    norm_num
  · rw [halt]; unfold MAX_ALTITUDE; norm_num
  · rw [halt]; unfold MIN_ALTITUDE; norm_num

/-! ## Sensor-service client (`control/i2cdataclient.py`)

`I2cDataClient.read` sends a request, blocks on `recv` with a 500 ms timeout,
and matches the response against `re.match(r'Temperature: (\S+) Altitude:
(\S+)', data_string)`.  A timeout raises `zmq.error.Again`, which is caught,
logged, and makes `read` return `None`; a response that does not match makes
`match.group(1)` raise an uncaught `AttributeError` (since `match` is
`None`).  The embedding takes the response as `Option String` (`none` =
receive timeout) and reports the three outcomes. -/

/-- Python's `\S` for the default string type: any character that is not one
of space, tab, newline, carriage return, vertical tab or form feed. -/
def pySpace (c : Char) : Bool :=
  c = ' ' || c = '\t' || c = '\n' || c = '\r' || c = Char.ofNat 11 || c = Char.ofNat 12

/-- Match a literal character sequence at the head of the input, returning the
rest. -/
def expectLit : List Char → List Char → Option (List Char)
  | [], rest => some rest
  | _ :: _, [] => none
  | l :: ls, c :: cs => if c = l then expectLit ls cs else none

/-- The regular expression `Temperature: (\S+) Altitude: (\S+)` applied with
`re.match` (anchored at the start only): the literal `Temperature: `, a
nonempty maximal run of non-whitespace (group 1 — a shorter run cannot be
followed by the required space, so backtracking never splits the run), the
literal ` Altitude: `, and a nonempty run of non-whitespace (group 2); any
trailing text is ignored. -/
def reMatchTempAlt (s : String) : Option (String × String) :=
  match expectLit "Temperature: ".data s.data with
  | none => none
  | some rest =>
    let g1 := rest.takeWhile fun c => !pySpace c
    if g1.isEmpty then none
    else
      match expectLit " Altitude: ".data (rest.dropWhile fun c => !pySpace c) with
      | none => none
      | some rest2 =>
        let g2 := rest2.takeWhile fun c => !pySpace c
        if g2.isEmpty then none else some (⟨g1⟩, ⟨g2⟩)

/-- Outcome of `I2cDataClient.read`: the parsed dictionary, the uncaught
`AttributeError` on a non-matching response, or the logged timeout that
returns `None`. -/
inductive ReadResult where
  | ok (temperature altitude : String)
  | attr_err
  | timeout_none
deriving DecidableEq

/-- `control/i2cdataclient.py` `I2cDataClient.read` on a response (`none` =
`zmq.error.Again` timeout): a matching response yields the dictionary of the
two extracted strings; a non-matching response raises `AttributeError`; a
timeout is caught, logged, and returns `None`. -/
def i2c_read (response : Option String) : ReadResult :=
  match response with
  | none => .timeout_none
  | some s =>
    match reMatchTempAlt s with
    | some (t, a) => .ok t a
    | none => .attr_err

/-- C3: for every sensor-service response, a response matching the pattern
makes `read` return the mapping of the two extracted fields as strings, while
a non-matching response or a receive timeout yields an outcome distinct from
every successful read (an uncaught `AttributeError`, respectively a logged
`None`) — never something indistinguishable from success. -/
theorem C3_sensor_read_outcomes (s : String) :
    (∀ t a, reMatchTempAlt s = some (t, a) → i2c_read (some s) = ReadResult.ok t a) ∧
    (reMatchTempAlt s = none → ∀ t a, i2c_read (some s) ≠ ReadResult.ok t a) ∧
    (∀ t a, i2c_read none ≠ ReadResult.ok t a) := by
  refine ⟨fun t a h => ?_, fun h t a => ?_, fun t a => ?_⟩
  · simp [i2c_read, h]
  · simp [i2c_read, h]
  · simp [i2c_read]

/-- Witness for C3 at the spec's concrete response: `read` on `Temperature: 0
Altitude: 100` yields temperature `0` and altitude `100`. -/
theorem C3_witness :
    i2c_read (some "Temperature: 0 Altitude: 100") = ReadResult.ok "0" "100" :=
  (C3_sensor_read_outcomes "Temperature: 0 Altitude: 100").1 "0" "100" (by rfl)

/-! ## Telemetry packaging (`control/main.py` `package_data`)

`package_data` computes the relative position, then evaluates
`data_client.read()` and `float(i2c_data['temperature'])`.  If the read timed
out, `i2c_data` is `None` and the subscription raises `TypeError`; if the
response did not match the pattern, the `AttributeError` raised inside `read`
propagates; if the captured temperature string is not numeric, `float()`
raises `ValueError`.  Only a fully successful read produces a telemetry
frame. -/

inductive PyErr where
  | type_err
  | attr_err
  | value_err
deriving DecidableEq

/-- The telemetry dictionary `package_data` builds for the ground station. -/
structure Telemetry where
  x : ℝ
  y : ℝ
  z : ℝ
  temp : ℝ
  lat : ℝ
  lon : ℝ
  time : ℝ

/-- Models the Python builtin `float()` on the plain decimal fragment
`[-]digits[.digits]` the sensor service emits; any other string raises
`ValueError` (modelled as `none`). -/
def pyFloat (s : String) : Option ℚ :=
  let cs := if s.data.head? = some '-' then s.data.tail else s.data
  let ip := cs.takeWhile Char.isDigit
  let rest := cs.dropWhile Char.isDigit
  let fp? : Option (List Char) :=
    match rest with
    | [] => some []
    | '.' :: f => if f.all Char.isDigit then some f else none
    | _ => none
  match fp? with
  | none => none
  | some f =>
    if ip.isEmpty && f.isEmpty then none
    else
      let num : ℕ := (ip ++ f).foldl (fun n c => 10 * n + (c.toNat - 48)) 0
      let q : ℚ := (num : ℚ) / (10 ^ f.length)
      some (if s.data.head? = some '-' then -q else q)

/-- `control/main.py` `package_data` with the vehicle reads and the sensor
read passed as data: builds the telemetry dictionary, or raises the Python
error produced while reading the temperature. -/
noncomputable def package_data (home location : LocationGlobalRelative)
    (i2c_data : ReadResult) (flight_time : ℝ) : Except PyErr Telemetry :=
  let location_gps := location_global_relative_to_gps_reading location
  let home_gps := location_global_relative_to_gps_reading home
  let xy := get_relative_from_location home_gps location_gps
  match i2c_data with
  | .attr_err => Except.error PyErr.attr_err
  | .timeout_none => Except.error PyErr.type_err
  | .ok t _a =>
    match pyFloat t with
    | none => Except.error PyErr.value_err
    | some temp =>
      Except.ok { x := xy.1, y := xy.2, z := location.alt, temp := (temp : ℝ),
                  lat := location.lat, lon := location.lon, time := flight_time }

/-- C2 counterexample: at the concrete tick with home and location `lgr0` and
a timed-out sensor read, `package_data` does not complete the tick with a
frame whose temperature is absent or stale — it raises an uncaught
`TypeError` (from subscripting the `None` that `read` returned), so no
telemetry frame is emitted and the flight loop is aborted. -/
theorem C2_counterexample :
    package_data lgr0 lgr0 (i2c_read none) 0 = Except.error PyErr.type_err ∧
      ∀ fr, package_data lgr0 lgr0 (i2c_read none) 0 ≠ Except.ok fr := by
  constructor
  · rfl
  · intro fr h
    rw [show package_data lgr0 lgr0 (i2c_read none) 0 = Except.error PyErr.type_err
      from rfl] at h
    cases h

/-- C2 as amended: a failed or missing sensor read during a traversal tick is
fatal to the tick — a receive timeout makes `package_data` raise `TypeError`,
a non-matching sensor response propagates the `AttributeError` raised inside
`read`, and a telemetry frame is produced only when the sensor read fully
succeeded; nothing in `main`'s flight loop catches these exceptions. -/
theorem C2_sensor_failure_aborts_tick (home location : LocationGlobalRelative)
    (flight_time : ℝ) :
    (package_data home location (i2c_read none) flight_time =
        Except.error PyErr.type_err) ∧
    (∀ s, reMatchTempAlt s = none →
      package_data home location (i2c_read (some s)) flight_time =
        Except.error PyErr.attr_err) ∧
    (∀ r fr, package_data home location r flight_time = Except.ok fr →
      ∃ t a, r = ReadResult.ok t a) := by
  refine ⟨rfl, fun s hs => ?_, fun r fr h => ?_⟩
  · simp [package_data, i2c_read, hs]
  · cases r with
    | ok t a => exact ⟨t, a, rfl⟩
    | attr_err => cases h
    | timeout_none => cases h

/-! ## Post-landing monitoring loop (`control/main.py` `main`)

After traversal, `main` runs `if mode == "GUIDED": land()` and then,
unconditionally and on every path that reaches this point (normal
completion, forced geofence landing, or operator override), the loop `while
vehicle_control.vehicle.armed: log_flight_info(); sleep(1)`.  The loop body
only logs; its sole exit condition is the `armed` flag read at the top of
each iteration.  `monitor_loop` consumes the finite trace of successive
`armed` readings and returns the index of the iteration at which the loop
exits, or `none` if the trace never reports disarmed (the loop is still
running at the end of the trace). -/

def monitor_loop : List Bool → Option Nat
  | [] => none
  | armed :: rest => if armed then (monitor_loop rest).map (· + 1) else some 0

/-- C8: the post-landing monitoring loop exits at reading `k` exactly when
reading `k` reports disarmed and every earlier reading reported armed — no
other condition exits the loop; and on a trace with no disarmed reading the
loop never exits, so the program reaches its normal exit only after observing
`armed == false`. -/
theorem C8_monitor_until_disarmed (readings : List Bool) (k : ℕ) :
    (monitor_loop readings = some k ↔
      readings.get? k = some false ∧ ∀ j < k, readings.get? j = some true) ∧
    (monitor_loop readings = none ↔ ∀ b ∈ readings, b = true) := by
  induction readings generalizing k with
  | nil => simp [monitor_loop]
  | cons armed rest ih =>
    cases armed with
    | false =>
      constructor
      · simp only [monitor_loop, if_neg Bool.false_ne_true, Option.some.injEq]
        constructor
        · rintro rfl
          exact ⟨rfl, fun j hj => absurd hj (Nat.not_lt_zero j)⟩
        · rintro ⟨hk, hprev⟩
          cases k with
          | zero => rfl
          | succ k' =>
            have h0 := hprev 0 (Nat.succ_pos k')
            simp at h0
      · simp [monitor_loop]
    | true =>
      constructor
      · simp only [monitor_loop, if_pos rfl]
        cases k with
        | zero =>
          constructor
          · intro h
            rcases hrest : monitor_loop rest with _ | n
            · rw [hrest] at h; cases h
            · rw [hrest] at h; simp at h
          · rintro ⟨hk, _⟩
            simp at hk
        | succ k' =>
          constructor
          · intro h
            rcases hrest : monitor_loop rest with _ | n
            · rw [hrest] at h; cases h
            · rw [hrest] at h
              simp at h
              have hn : n = k' := by omega
              have hrest' : monitor_loop rest = some k' := by rw [hrest, hn]
              obtain ⟨hget, hprev⟩ := ((ih k').1).mp hrest'
              refine ⟨by simpa using hget, ?_⟩
              intro j hj
              cases j with
              | zero => rfl
              | succ j' =>
                have := hprev j' (by omega)
                simpa using this
          · rintro ⟨hget, hprev⟩
            have hrest : monitor_loop rest = some k' := by
              refine ((ih k').1).mpr ⟨by simpa using hget, ?_⟩
              intro j hj
              have := hprev (j + 1) (by omega)
              simpa using this
            rw [hrest]
            rfl
      · simp only [monitor_loop, if_pos rfl]
        constructor
        · intro h
          rcases hrest : monitor_loop rest with _ | n
          · intro b hb
            rcases List.mem_cons.mp hb with rfl | hb'
            · rfl
            · exact ((ih 0).2.mp hrest) b hb'
          · rw [hrest] at h; cases h
        · intro hall
          have : monitor_loop rest = none :=
            (ih 0).2.mpr fun b hb => hall b (List.mem_cons_of_mem _ hb)
          rw [this]
          rfl

/-- Witness for C8 at the concrete trace `[true, true, false]`: the loop runs
two armed iterations and exits on the third reading, the first disarmed one. -/
theorem C8_witness : monitor_loop [true, true, false] = some 2 :=
  ((C8_monitor_until_disarmed [true, true, false] 2).1).mpr
    ⟨by rfl, by decide⟩

/-! ## Return-to-home point and goto sequence (`control/main.py` `main`)

After `create_waypoints` succeeds, `main` runs `vehicle_control.arm()`,
`vehicle_control.takeoff(10)` and `points.append(vehicle_control.home)`,
then — when the mode read before the loop is `"GUIDED"` — iterates `for point
in points`, re-reading the mode before each `goto(point)` and breaking out of
the loop when it is no longer `"GUIDED"` (the inner wait loop issues no
`goto`).  `traverse_gotos modes i points` is the list of `goto` targets
issued from loop index `i` on, with `modes j` the mode read at index `j`. -/

def traverse_gotos (modes : ℕ → String) : ℕ → List LocationGlobalRelative →
    List LocationGlobalRelative
  | _, [] => []
  | i, p :: ps => if modes i = "GUIDED" then p :: traverse_gotos modes (i + 1) ps else []

/-- `control/main.py` `main`, from `vehicle_control.arm()` to the traversal
loop: the home captured by `arm()` at `arm_location` has its altitude
overwritten to `10` by `takeoff(10)`, is appended to the validated point
list, and the `goto` targets are the points of the extended list taken while
the mode reads `"GUIDED"` (reading index 0 is the check before the loop). -/
def main_goto_targets (arm_location : LocationGlobalRelative) (modes : ℕ → String)
    (converted : List LocationGlobalRelative) : List LocationGlobalRelative :=
  let home := run_home none [COp.arm arm_location, COp.takeoff 10]
  let points := converted ++ home.toList
  if modes 0 = "GUIDED" then traverse_gotos modes 1 points else []

lemma traverse_gotos_all_guided (modes : ℕ → String)
    (hg : ∀ j, modes j = "GUIDED") :
    ∀ (i : ℕ) (ps : List LocationGlobalRelative), traverse_gotos modes i ps = ps := by
  intro i ps
  induction ps generalizing i with
  | nil => rfl
  | cons p rest ih =>
    unfold traverse_gotos
    rw [if_pos (hg i), ih (i + 1)]

/-- C10: for every validated plan, when the vehicle stays in guided mode the
sequence of `goto` targets is the converted waypoints in their received order
followed by exactly one extra point at the launch (arming) location with the
takeoff altitude `10` — the vehicle is directed back toward the takeoff point
before landing. -/
theorem C10_home_appended_as_final_target (arm_location : LocationGlobalRelative)
    (modes : ℕ → String) (converted : List LocationGlobalRelative)
    (hg : ∀ j, modes j = "GUIDED") :
    main_goto_targets arm_location modes converted =
      converted ++ [{ lat := arm_location.lat, lon := arm_location.lon, alt := 10 }] := by
  unfold main_goto_targets
  simp only [run_home, op_home, Option.map_some', Option.toList_some]
  rw [if_pos (hg 0), traverse_gotos_all_guided modes hg]

/-- Witness for C10 at the concrete arming location `loc0`, a one-waypoint
plan and a mode that stays `"GUIDED"`: the goto sequence is the waypoint
followed by the launch point at altitude `10`. -/
theorem C10_witness :
    main_goto_targets loc0 (fun _ => "GUIDED") [lgr0] =
      [lgr0] ++ [{ lat := loc0.lat, lon := loc0.lon, alt := 10 }] :=
  C10_home_appended_as_final_target loc0 (fun _ => "GUIDED") [lgr0] fun _ => rfl

/-! ## Ground-station link (`control/communication.py`)

`Communication.send` writes `json.dumps(data)` followed by a newline;
`Communication.receive` does `readline()` (returning empty bytes on the
serial timeout), returns `None` on an empty read, and returns
`json.loads(...)` — returning `None` as well when that raises `ValueError`.
Python has a single `None` value, so a decoded JSON `null` is returned as the
very same value that stands for "nothing arrived".

`PyVal` is the Python value universe actually framed on this link in the
claims below, with `pynone` standing for Python `None`.  `json_loads` and
`json_dumps` model the standard-library JSON codec restricted to this
fragment (null, booleans, integers without leading zeros, escape-free
strings); everything outside the fragment is treated as a decode failure at
this boundary. -/

inductive PyVal where
  | pynone
  | pybool (b : Bool)
  | pyint (n : ℤ)
  | pystr (s : String)
deriving DecidableEq

/-- JSON insignificant whitespace. -/
def jsonWs (c : Char) : Bool := c = ' ' || c = '\t' || c = '\n' || c = '\r'

/-- The numeric value of a digit run. -/
def digitsVal (cs : List Char) : ℕ := cs.foldl (fun n c => 10 * n + (c.toNat - 48)) 0

/-- Parse a JSON integer literal without sign: a nonempty digit run with no
leading zero. -/
def parseJsonNat (cs : List Char) : Option (ℕ × List Char) :=
  let ds := cs.takeWhile Char.isDigit
  if ds.isEmpty then none
  else if ds.length > 1 && ds.head? = some '0' then none
  else some (digitsVal ds, cs.dropWhile Char.isDigit)

/-- Parse one JSON value of the fragment at the head of the input. -/
def parseJsonValue (cs : List Char) : Option (PyVal × List Char) :=
  match cs with
  | 'n' :: 'u' :: 'l' :: 'l' :: rest => some (PyVal.pynone, rest)
  | 't' :: 'r' :: 'u' :: 'e' :: rest => some (PyVal.pybool true, rest)
  | 'f' :: 'a' :: 'l' :: 's' :: 'e' :: rest => some (PyVal.pybool false, rest)
  | '"' :: rest =>
    let content := rest.takeWhile fun c => c ≠ '"'
    if content.all fun c => c ≠ '\\' then
      match rest.dropWhile fun c => c ≠ '"' with
      | '"' :: rest2 => some (PyVal.pystr ⟨content⟩, rest2)
      | _ => none
    else none
  | '-' :: rest => (parseJsonNat rest).map fun p => (PyVal.pyint (-(p.1 : ℤ)), p.2)
  | _ => (parseJsonNat cs).map fun p => (PyVal.pyint (p.1 : ℤ), p.2)

/-- `json.loads` on the fragment: one value, surrounded only by insignificant
whitespace; anything else raises `ValueError` (modelled as `none`). -/
def json_loads (s : String) : Option PyVal :=
  match parseJsonValue (s.data.dropWhile jsonWs) with
  | some (v, rest) => if (rest.dropWhile jsonWs).isEmpty then some v else none
  | none => none

/-- `json.dumps` on the fragment. -/
def json_dumps : PyVal → String
  | PyVal.pynone => "null"
  | PyVal.pybool true => "true"
  | PyVal.pybool false => "false"
  | PyVal.pyint n => toString n
  | PyVal.pystr s => "\"" ++ s ++ "\""

/-- `control/communication.py` `Communication.send`: the bytes written for a
value are its JSON encoding followed by a newline. -/
def send (data : PyVal) : String := json_dumps data ++ "\n"

/-- `control/communication.py` `Communication.receive`: an empty read (serial
timeout) returns `None`; a frame `json.loads` rejects returns `None`; an
accepted frame returns the decoded value — which is the same `None` when the
frame decoded to JSON `null`. -/
def receive (line : String) : PyVal :=
  if line.isEmpty then PyVal.pynone
  else
    match json_loads line with
    | none => PyVal.pynone
    | some v => v

/-- C9: `receive` returns Python `None` in three indistinguishable cases — a
channel timeout (empty read), a frame that is not valid JSON, and a frame
whose decoded value is JSON `null`; in particular a sender cannot transmit
the value `null` (its frame is received exactly like no message at all),
while other values of the fragment do arrive intact. -/
theorem C9_receive_none_conflation :
    receive "" = PyVal.pynone ∧
    json_loads "Flight path follows" = none ∧
    receive "Flight path follows" = PyVal.pynone ∧
    json_loads "null" = some PyVal.pynone ∧
    receive (send PyVal.pynone) = PyVal.pynone ∧
    receive (send PyVal.pynone) = receive "" ∧
    receive (send (PyVal.pyint 5)) = PyVal.pyint 5 ∧
    receive (send (PyVal.pystr "ok")) = PyVal.pystr "ok" := by
  refine ⟨rfl, rfl, rfl, rfl, rfl, rfl, ?_, ?_⟩ <;> rfl

end Control
